import Mathlib

/-!
Verification development for the UavBot quadcopter flight controller
(`src/Firmware/sub/Controller/Controller.cpp`).

The controller is embedded shallowly over `ℝ` (the source uses IEEE `float`;
the embedding uses exact real arithmetic).  The external helper libraries
(`CppUtil`, `PID`, `Props`, the `Quat`/`Vector`/`Matrix` linear-algebra
classes) are not part of the repository; the few pieces of them the
controller relies on are modelled from the specification, and are marked
as such in their doc comments.  The two externally supplied prop-force
bounds `Props::f_prop_min` and `Props::f_prop_max` are kept as parameters
of every definition that consumes them.
-/

noncomputable section

/-- Modelled from the spec: `CppUtil::clamp` (external library, not in the
repository).  Spec §4.3 step 1 clamps a value into a closed interval. -/
def clamp (x lo hi : ℝ) : ℝ :=
  if x < lo then lo else if hi < x then hi else x

/-- Modelled from the spec: `CppUtil::sqa` (external library, not in the
repository), the squaring helper used for `acc_mag_max_sq`. -/
def sqa (x : ℝ) : ℝ := x * x

/-- Output clamp of the PID library with possibly infinite bounds.  The C++
code passes the IEEE `float` infinities `-HUGE_VALF` / `+HUGE_VALF` as
bounds of the attitude PIDs; those are modelled by `⊥` / `⊤` in `EReal`. -/
def clampE (x : ℝ) (lo hi : EReal) : ℝ :=
  if (x : EReal) < lo then lo.toReal else if hi < (x : EReal) then hi.toReal else x

/-- Modelled from the spec: the `PID` class (external library, not in the
repository).  Spec §4.2: a PID controller holds a gain triplet, output
bounds, the control frequency, an integral accumulator and the previous
error (for the derivative term). -/
structure PID where
  kp : ℝ
  ki : ℝ
  kd : ℝ
  o_min : EReal
  o_max : EReal
  f_ctrl : ℝ
  integral : ℝ
  prev_err : ℝ

namespace PID

/-- Modelled from the spec (§4.2): the integral accumulator after one update.
When the saturation hint is set the integral accumulation is suppressed
(anti-windup); otherwise the error is integrated over one control period
`1 / f_ctrl`. -/
def nextIntegral (c : PID) (e : ℝ) (sat : Bool) : ℝ :=
  if sat then c.integral else c.integral + c.ki * e / c.f_ctrl

/-- Modelled from the spec (§4.2): the unclamped P + I + D sum of one update:
proportional term from the error, the freshly accumulated integral term, and
a derivative term from the change in error since the previous call. -/
def rawOut (c : PID) (e : ℝ) (sat : Bool) : ℝ :=
  c.kp * e + c.nextIntegral e sat + c.kd * (e - c.prev_err) * c.f_ctrl

/-- Modelled from the spec (§4.2): one PID update returns the output clamped
to the stored bounds together with the updated controller state. -/
def update (c : PID) (e : ℝ) (sat : Bool) : ℝ × PID :=
  (clampE (c.rawOut e sat) c.o_min c.o_max,
   { c with integral := c.nextIntegral e sat, prev_err := e })

/-- Modelled from the spec (§4.2): `PID::reset` zeroes the integral
accumulator and the stored previous error; gains and bounds are untouched. -/
def reset (c : PID) : PID :=
  { c with integral := 0, prev_err := 0 }

end PID

namespace Controller

/-! Physical constants (`Controller.cpp` lines 21-26). -/

def inr_xx : ℝ := 1.15e-3
def inr_yy : ℝ := 1.32e-3
def inr_zz : ℝ := 2.24e-3
def mass : ℝ := 0.546
def gravity : ℝ := 9.807

/-! Control constants (lines 28-50). -/

def f_ctrl : ℝ := 50.0
def f_rat_min : ℝ := 0.10
def f_rat_max : ℝ := 0.90
def pole_az : ℝ := -8.0
def pole_qx : ℝ := -5.0
def qx_kp_adj : ℝ := 0.000
def qx_ki_adj : ℝ := 0.000
def qx_kd_adj : ℝ := 0.000
def pole_qy : ℝ := -5.0
def qy_kp_adj : ℝ := 0.000
def qy_ki_adj : ℝ := 0.000
def qy_kd_adj : ℝ := 0.000
def pole_qz : ℝ := -3.0
def qz_kp_adj : ℝ := 0.000
def qz_ki_adj : ℝ := 0.000
def qz_kd_adj : ℝ := 0.000

/-! Derived constants (lines 52-60).  `Props::f_prop_max` is external, so the
constants derived from it are functions of it. -/

def t_ctrl_s : ℝ := 1.0 / f_ctrl
def t_ctrl_us : ℝ := 1e6 * t_ctrl_s
def acc_max (f_prop_max : ℝ) : ℝ := 4.0 * f_prop_max / mass
def acc_mag_min (f_prop_max : ℝ) : ℝ := acc_max f_prop_max * f_rat_min
def acc_mag_max (f_prop_max : ℝ) : ℝ := acc_max f_prop_max * f_rat_max
def acc_mag_max_sq (f_prop_max : ℝ) : ℝ := sqa (acc_mag_max f_prop_max)
def f_lin_min (f_prop_max : ℝ) : ℝ := 4.0 * f_prop_max * f_rat_min
def f_lin_max (f_prop_max : ℝ) : ℝ := 4.0 * f_prop_max * f_rat_max

/-! Gain synthesis (lines 62-84), with `powf` rendered as `ℝ` powers. -/

def qx_kp : ℝ := 6.0 * inr_xx * pole_qx ^ 2 + qx_kp_adj
def qx_ki : ℝ := -2.0 * inr_xx * pole_qx ^ 3 + qx_ki_adj
def qx_kd : ℝ := -6.0 * inr_xx * pole_qx ^ 1 + qx_kd_adj
def qy_kp : ℝ := 6.0 * inr_yy * pole_qy ^ 2 + qy_kp_adj
def qy_ki : ℝ := -2.0 * inr_yy * pole_qy ^ 3 + qy_ki_adj
def qy_kd : ℝ := -6.0 * inr_yy * pole_qy ^ 1 + qy_kd_adj
def qz_kp : ℝ := 6.0 * inr_zz * pole_qz ^ 2 + qz_kp_adj
def qz_ki : ℝ := -2.0 * inr_zz * pole_qz ^ 3 + qz_ki_adj
def qz_kd : ℝ := -6.0 * inr_zz * pole_qz ^ 1 + qz_kd_adj
def az_kp : ℝ := 0.0
def az_ki : ℝ := -mass * pole_az
def az_kd : ℝ := 0.0

/-- The quat x-axis PID controller as constructed at startup (line 66):
output bounds `-HUGE_VALF` / `+HUGE_VALF`, i.e. `⊥` / `⊤`, zero state. -/
def quat_x_pid : PID := ⟨qx_kp, qx_ki, qx_kd, ⊥, ⊤, f_ctrl, 0, 0⟩

/-- The quat y-axis PID controller as constructed at startup (line 72). -/
def quat_y_pid : PID := ⟨qy_kp, qy_ki, qy_kd, ⊥, ⊤, f_ctrl, 0, 0⟩

/-- The quat z-axis PID controller as constructed at startup (line 78). -/
def quat_z_pid : PID := ⟨qz_kp, qz_ki, qz_kd, ⊥, ⊤, f_ctrl, 0, 0⟩

/-- The accel z-axis PID controller as constructed at startup (line 84):
finite output bounds `[f_lin_min, f_lin_max]`. -/
def acc_z_pid (f_prop_max : ℝ) : PID :=
  ⟨az_kp, az_ki, az_kd, ((f_lin_min f_prop_max : ℝ) : EReal),
   ((f_lin_max f_prop_max : ℝ) : EReal), f_ctrl, 0, 0⟩

/-- The mutable state of namespace `Controller` (lines 86-98): the four PID
objects, the three basis vectors, the two allocation matrices, the output
force vector and the two flags. -/
structure State where
  quat_x_pid : PID
  quat_y_pid : PID
  quat_z_pid : PID
  acc_z_pid : PID
  x_hat : Fin 3 → ℝ
  y_hat : Fin 3 → ℝ
  z_hat : Fin 3 → ℝ
  D_bar_ang : Fin 4 → Fin 3 → ℝ
  D_bar_lin : Fin 4 → ℝ
  f_props : Fin 4 → ℝ
  quat_sat : Bool
  init_complete : Bool

/-- The startup state: C++ zero-initializes the namespace-level vectors,
matrices and flags, and the PID objects are constructed with the synthesized
gains and zero integrators. -/
def initialState (f_prop_max : ℝ) : State :=
  { quat_x_pid := quat_x_pid, quat_y_pid := quat_y_pid, quat_z_pid := quat_z_pid,
    acc_z_pid := acc_z_pid f_prop_max,
    x_hat := fun _ => 0, y_hat := fun _ => 0, z_hat := fun _ => 0,
    D_bar_ang := fun _ _ => 0, D_bar_lin := fun _ => 0,
    f_props := fun _ => 0, quat_sat := false, init_complete := false }

/-! Values installed by `Controller::init` (lines 104-146). -/

def x_hat_init : Fin 3 → ℝ := ![1, 0, 0]
def y_hat_init : Fin 3 → ℝ := ![0, 1, 0]
def z_hat_init : Fin 3 → ℝ := ![0, 0, 1]

def D_bar_ang_init : Fin 4 → Fin 3 → ℝ :=
  ![![2.688172, -2.688172, 4.545455],
    ![-2.688172, -2.688172, -4.545455],
    ![2.688172, 2.688172, -4.545455],
    ![-2.688172, 2.688172, 4.545455]]

def D_bar_lin_init : Fin 4 → ℝ := ![0.25, 0.25, 0.25, 0.25]

/-- Controller::init (lines 104-146): populates the basis vectors and the two
allocation matrices exactly once, guarded by `init_complete`. -/
def init (s : State) : State :=
  if s.init_complete then s
  else { s with x_hat := x_hat_init, y_hat := y_hat_init, z_hat := z_hat_init,
                D_bar_ang := D_bar_ang_init, D_bar_lin := D_bar_lin_init,
                init_complete := true }

/-! Acceleration-command shaping (lines 159-171). -/

/-- Horizontal-plane magnitude `hypot(lin_acc_cmd(0), lin_acc_cmd(1))`
(line 164), with `hypot` modelled as the exact square root of the sum of
squares. -/
def norm_xy (cmd : Fin 3 → ℝ) : ℝ := Real.sqrt (cmd 0 ^ 2 + cmd 1 ^ 2)

/-- Vertical component after the gravity offset (line 160) and the clamp of
line 163. -/
def acc_z_shaped (f_prop_max : ℝ) (cmd : Fin 3 → ℝ) : ℝ :=
  clamp (cmd 2 + gravity) (acc_mag_min f_prop_max) (acc_mag_max f_prop_max)

/-- Maximum feasible horizontal magnitude (line 165), computed from the
already-clamped vertical component. -/
def norm_xy_max (f_prop_max : ℝ) (cmd : Fin 3 → ℝ) : ℝ :=
  Real.sqrt (acc_mag_max_sq f_prop_max - sqa (acc_z_shaped f_prop_max cmd))

/-- Scale factor `p = norm_xy_max / norm_xy` of line 166.  The source
performs this division unconditionally, before the `p < 1.0f` test of
line 167; there is no zero test on the divisor. -/
def acc_p (f_prop_max : ℝ) (cmd : Fin 3 → ℝ) : ℝ :=
  norm_xy_max f_prop_max cmd / norm_xy cmd

/-- Acceleration-command shaping (lines 159-171): gravity offset, vertical
clamp, and the direction-preserving horizontal limit. -/
def acc_shape (f_prop_max : ℝ) (cmd : Fin 3 → ℝ) : Fin 3 → ℝ :=
  if acc_p f_prop_max cmd < 1 then
    ![cmd 0 * acc_p f_prop_max cmd, cmd 1 * acc_p f_prop_max cmd,
      acc_z_shaped f_prop_max cmd]
  else ![cmd 0, cmd 1, acc_z_shaped f_prop_max cmd]

/-! Orientation command (lines 173-187). -/

/-- Modelled from the spec (§4.4): the axis-angle quaternion constructor
`Quat(axis, angle)` of the external linear-algebra library, building the
rotation by the given angle about the given unit axis. -/
def quat_aa (axis : Fin 3 → ℝ) (a : ℝ) : Quaternion ℝ :=
  ⟨Real.cos (a / 2), Real.sin (a / 2) * axis 0,
   Real.sin (a / 2) * axis 1, Real.sin (a / 2) * axis 2⟩

/-- Norm of a 3-vector (`norm(lin_acc_cmd)`, line 176). -/
def norm3 (v : Fin 3 → ℝ) : ℝ := Real.sqrt (v 0 ^ 2 + v 1 ^ 2 + v 2 ^ 2)

/-- The accel-following branch of the orientation command (lines 178-186). -/
def orient_cmd_main (xh yh zh acc : Fin 3 → ℝ) (ang_z_cmd : ℝ) : Quaternion ℝ :=
  let n := norm3 acc
  let cos_z := Real.cos ang_z_cmd
  let sin_z := Real.sin ang_z_cmd
  let t_x := Real.arcsin (sin_z * (acc 0 / n) - cos_z * (acc 1 / n))
  let t_y := Real.arcsin ((cos_z * (acc 0 / n) + sin_z * (acc 1 / n)) / Real.cos t_x)
  quat_aa zh ang_z_cmd * quat_aa yh t_y * quat_aa xh t_x

/-- The orientation command `q_cmd` (lines 173-187): the yaw-only rotation
`q_z` alone unless the acceleration command has positive norm. -/
def orient_cmd (xh yh zh acc : Fin 3 → ℝ) (ang_z_cmd : ℝ) : Quaternion ℝ :=
  if 0 < norm3 acc then orient_cmd_main xh yh zh acc ang_z_cmd
  else quat_aa zh ang_z_cmd

/-! Quaternion attitude control (lines 189-196). -/

/-- Double-cover sign correction (line 191): negate the error quaternion when
its scalar component is negative. -/
def sign_fix (q : Quaternion ℝ) : Quaternion ℝ := if q.re < 0 then -q else q

/-- The quaternion attitude-control step (lines 190-195): the torque command
vector produced by the three attitude PID loops from the sign-corrected
orientation error. -/
def tau_cmd (px py pz : PID) (ang_err : Quaternion ℝ) (sat : Bool) : Fin 3 → ℝ :=
  let qe := sign_fix ang_err
  ![(px.update (-qe.imI) sat).1, (py.update (-qe.imJ) sat).1,
    (pz.update (-qe.imK) sat).1]

/-- Product of the 4x3 allocation matrix with the torque command vector
(line 196). -/
def matVec3 (M : Fin 4 → Fin 3 → ℝ) (v : Fin 3 → ℝ) : Fin 4 → ℝ :=
  fun i => M i 0 * v 0 + M i 1 * v 1 + M i 2 * v 2

/-- Modelled from the spec (§4.6): the `Quat * Vector<3>` rotation operator
of the external linear-algebra library, re-expressing a vector by quaternion
conjugation of the pure quaternion carrying it. -/
def quatRotate (q : Quaternion ℝ) (v : Fin 3 → ℝ) : Fin 3 → ℝ :=
  let pv : Quaternion ℝ := ⟨0, v 0, v 1, v 2⟩
  let r : Quaternion ℝ := q * pv * star q
  ![r.imI, r.imJ, r.imK]

/-! Force regulator (lines 207-222). -/

/-- Per-prop torque scale factor (lines 212-215). -/
def pScale (f_prop_min f_prop_max f_ang_i f_lin_i : ℝ) : ℝ :=
  if 0 < f_ang_i then (f_prop_max - f_lin_i) / f_ang_i
  else if f_ang_i < 0 then (f_prop_min - f_lin_i) / f_ang_i
  else 1

/-- One iteration of the force-regulator loop (lines 216-220); the
accumulator is the pair `(p_min, quat_sat)`. -/
def regStep (pm : ℝ × Bool) (p : ℝ) : ℝ × Bool :=
  if 0 < p ∧ p < pm.1 then (p, true) else pm

/-- The four per-prop scale factors in loop order. -/
def pList (f_prop_min f_prop_max : ℝ) (f_ang f_lin : Fin 4 → ℝ) : List ℝ :=
  [pScale f_prop_min f_prop_max (f_ang 0) (f_lin 0),
   pScale f_prop_min f_prop_max (f_ang 1) (f_lin 1),
   pScale f_prop_min f_prop_max (f_ang 2) (f_lin 2),
   pScale f_prop_min f_prop_max (f_ang 3) (f_lin 3)]

/-- The force-regulator loop (lines 207-221), started from `p_min = 1` and
`quat_sat = false`. -/
def regulator (f_prop_min f_prop_max : ℝ) (f_ang f_lin : Fin 4 → ℝ) : ℝ × Bool :=
  (pList f_prop_min f_prop_max f_ang f_lin).foldl regStep (1, false)

/-- The output force vector `f_props = p_min * f_ang + f_lin` (line 222). -/
def force_reg (f_prop_min f_prop_max : ℝ) (f_ang f_lin : Fin 4 → ℝ) : Fin 4 → ℝ :=
  fun i => (regulator f_prop_min f_prop_max f_ang f_lin).1 * f_ang i + f_lin i

/-- The sensor and command inputs consumed by one `update()` call
(lines 153-157). -/
structure Inputs where
  ang_pos : Quaternion ℝ
  lin_acc_loc : Fin 3 → ℝ
  lin_acc_cmd : Fin 3 → ℝ
  ang_z_cmd : ℝ

/-- Controller::update (lines 151-223): one control-loop iteration. -/
def update (f_prop_min f_prop_max : ℝ) (u : Inputs) (s : State) : State :=
  let shaped := acc_shape f_prop_max u.lin_acc_cmd
  let q_cmd := orient_cmd s.x_hat s.y_hat s.z_hat shaped u.ang_z_cmd
  let qe := sign_fix (q_cmd⁻¹ * u.ang_pos)
  let rx := s.quat_x_pid.update (-qe.imI) s.quat_sat
  let ry := s.quat_y_pid.update (-qe.imJ) s.quat_sat
  let rz := s.quat_z_pid.update (-qe.imK) s.quat_sat
  let f_ang := matVec3 s.D_bar_ang ![rx.1, ry.1, rz.1]
  let acc_w : Fin 3 → ℝ := ![shaped 0, shaped 1, shaped 2 - gravity]
  let acc_cmd_loc := quatRotate u.ang_pos⁻¹ acc_w
  let ra := s.acc_z_pid.update (acc_cmd_loc 2 - u.lin_acc_loc 2) false
  let f_lin : Fin 4 → ℝ := fun i => s.D_bar_lin i * ra.1
  let reg := regulator f_prop_min f_prop_max f_ang f_lin
  { s with quat_x_pid := rx.2, quat_y_pid := ry.2, quat_z_pid := rz.2,
           acc_z_pid := ra.2, quat_sat := reg.2,
           f_props := fun i => reg.1 * f_ang i + f_lin i }

/-- Controller::reset (lines 228-236): resets the four PID controllers,
clears the saturation flag and zeroes the output force vector. -/
def reset (s : State) : State :=
  { s with quat_x_pid := s.quat_x_pid.reset, quat_y_pid := s.quat_y_pid.reset,
           quat_z_pid := s.quat_z_pid.reset, acc_z_pid := s.acc_z_pid.reset,
           quat_sat := false, f_props := fun _ => 0 }

/-- Controller::get_f_props (lines 241-244). -/
def get_f_props (s : State) : Fin 4 → ℝ := s.f_props

/-- The per-prop factor as the spec words it: the factor itself when it is
valid (it lies in `(0,1)`), and the neutral value `1` otherwise. -/
def pValid (f_prop_min f_prop_max fa fl : ℝ) : ℝ :=
  if 0 < pScale f_prop_min f_prop_max fa fl ∧ pScale f_prop_min f_prop_max fa fl < 1
  then pScale f_prop_min f_prop_max fa fl else 1

/-- The global scale factor as the spec words it:
`min(1, min over i of the valid per-prop factors p_i in (0,1))`. -/
def p_spec (f_prop_min f_prop_max : ℝ) (f_ang f_lin : Fin 4 → ℝ) : ℝ :=
  min 1 (min (min (pValid f_prop_min f_prop_max (f_ang 0) (f_lin 0))
                  (pValid f_prop_min f_prop_max (f_ang 1) (f_lin 1)))
             (min (pValid f_prop_min f_prop_max (f_ang 2) (f_lin 2))
                  (pValid f_prop_min f_prop_max (f_ang 3) (f_lin 3))))

/-! Behaviour of the regulator fold. -/

theorem regFold_fst_le (l : List ℝ) (a : ℝ) (b : Bool) :
    (l.foldl regStep (a, b)).1 ≤ a := by
  induction l generalizing a b with
  | nil => exact le_refl a
  | cons p l ih =>
    rw [List.foldl_cons]
    by_cases h : 0 < p ∧ p < a
    · rw [show regStep (a, b) p = (p, true) from if_pos h]
      exact le_of_lt (lt_of_le_of_lt (ih p true) h.2)
    · rw [show regStep (a, b) p = (a, b) from if_neg h]
      exact ih a b

theorem regFold_fst_pos (l : List ℝ) (a : ℝ) (b : Bool) (ha : 0 < a) :
    0 < (l.foldl regStep (a, b)).1 := by
  induction l generalizing a b with
  | nil => exact ha
  | cons p l ih =>
    rw [List.foldl_cons]
    by_cases h : 0 < p ∧ p < a
    · rw [show regStep (a, b) p = (p, true) from if_pos h]
      exact ih p true h.1
    · rw [show regStep (a, b) p = (a, b) from if_neg h]
      exact ih a b ha

theorem regFold_fst_le_of_mem (l : List ℝ) (a : ℝ) (b : Bool) (p : ℝ)
    (hp : p ∈ l) (hpos : 0 < p) : (l.foldl regStep (a, b)).1 ≤ p := by
  induction l generalizing a b with
  | nil => cases hp
  | cons q l ih =>
    rw [List.foldl_cons]
    rcases List.mem_cons.mp hp with rfl | hmem
    · by_cases h : 0 < p ∧ p < a
      · rw [show regStep (a, b) p = (p, true) from if_pos h]
        exact regFold_fst_le l p true
      · rw [show regStep (a, b) p = (a, b) from if_neg h]
        have hap : a ≤ p := by
          by_contra hc
          exact h ⟨hpos, lt_of_not_le hc⟩
        exact le_trans (regFold_fst_le l a b) hap
    · by_cases h : 0 < q ∧ q < a
      · rw [show regStep (a, b) q = (q, true) from if_pos h]
        exact ih q true hmem
      · rw [show regStep (a, b) q = (a, b) from if_neg h]
        exact ih a b hmem

theorem regFold_attain (l : List ℝ) (a : ℝ) (b : Bool) :
    l.foldl regStep (a, b) = (a, b) ∨
    ∃ p, p ∈ l ∧ 0 < p ∧ p < a ∧ (l.foldl regStep (a, b)).1 = p ∧
      (l.foldl regStep (a, b)).2 = true := by
  induction l generalizing a b with
  | nil => exact Or.inl rfl
  | cons q l ih =>
    rw [List.foldl_cons]
    by_cases h : 0 < q ∧ q < a
    · rw [show regStep (a, b) q = (q, true) from if_pos h]
      rcases ih q true with heq | ⟨p, hmem, hpos, hlt, hval, hflag⟩
      · exact Or.inr ⟨q, List.mem_cons_self q l, h.1, h.2, by rw [heq], by rw [heq]⟩
      · exact Or.inr ⟨p, List.mem_cons_of_mem q hmem, hpos, lt_trans hlt h.2, hval, hflag⟩
    · rw [show regStep (a, b) q = (a, b) from if_neg h]
      rcases ih a b with heq | ⟨p, hmem, hpos, hlt, hval, hflag⟩
      · exact Or.inl heq
      · exact Or.inr ⟨p, List.mem_cons_of_mem q hmem, hpos, hlt, hval, hflag⟩

theorem pScale_mem_pList (f_prop_min f_prop_max : ℝ) (f_ang f_lin : Fin 4 → ℝ)
    (i : Fin 4) :
    pScale f_prop_min f_prop_max (f_ang i) (f_lin i) ∈
      pList f_prop_min f_prop_max f_ang f_lin := by
  fin_cases i <;> simp [pList]

/-- C2: in every `update()` call the allocation step computes a single global
scale factor `p_min` equal to `min(1, min over i of the valid per-prop
factors p_i in (0,1))` (with `p_i = (f_prop_max - thrust_i)/torque_i` for
positive torque, `(f_prop_min - thrust_i)/torque_i` for negative torque and
`1` for zero torque, as `pScale` defines); this factor always lies in
`(0, 1]`, and the final per-prop force is `p_min * torque_i + thrust_i` with
the same `p_min` applied uniformly to all four props. -/
theorem regulator_scale_spec (f_prop_min f_prop_max : ℝ) (f_ang f_lin : Fin 4 → ℝ) :
    (regulator f_prop_min f_prop_max f_ang f_lin).1 =
      p_spec f_prop_min f_prop_max f_ang f_lin ∧
    0 < (regulator f_prop_min f_prop_max f_ang f_lin).1 ∧
    (regulator f_prop_min f_prop_max f_ang f_lin).1 ≤ 1 ∧
    ∀ i : Fin 4, force_reg f_prop_min f_prop_max f_ang f_lin i =
      (regulator f_prop_min f_prop_max f_ang f_lin).1 * f_ang i + f_lin i := by
  have hle1 : (regulator f_prop_min f_prop_max f_ang f_lin).1 ≤ 1 :=
    regFold_fst_le _ 1 false
  have hpos : 0 < (regulator f_prop_min f_prop_max f_ang f_lin).1 :=
    regFold_fst_pos _ 1 false one_pos
  have hleV : ∀ i : Fin 4, (regulator f_prop_min f_prop_max f_ang f_lin).1 ≤
      pValid f_prop_min f_prop_max (f_ang i) (f_lin i) := by
    intro i
    unfold pValid
    split_ifs with h
    · exact regFold_fst_le_of_mem _ 1 false _ (pScale_mem_pList _ _ _ _ i) h.1
    · exact hle1
  refine ⟨le_antisymm ?_ ?_, hpos, hle1, fun i => rfl⟩
  · exact le_min hle1 (le_min (le_min (hleV 0) (hleV 1)) (le_min (hleV 2) (hleV 3)))
  · rcases regFold_attain (pList f_prop_min f_prop_max f_ang f_lin) 1 false with
      heq | ⟨p, hmem, hp0, hp1, hval, _⟩
    · have : (regulator f_prop_min f_prop_max f_ang f_lin).1 = 1 := by
        unfold regulator; rw [heq]
      rw [this]
      exact min_le_left _ _
    · have h0 : p_spec f_prop_min f_prop_max f_ang f_lin ≤
          pValid f_prop_min f_prop_max (f_ang 0) (f_lin 0) :=
        le_trans (min_le_right _ _) (le_trans (min_le_left _ _) (min_le_left _ _))
      have h1 : p_spec f_prop_min f_prop_max f_ang f_lin ≤
          pValid f_prop_min f_prop_max (f_ang 1) (f_lin 1) :=
        le_trans (min_le_right _ _) (le_trans (min_le_left _ _) (min_le_right _ _))
      have h2 : p_spec f_prop_min f_prop_max f_ang f_lin ≤
          pValid f_prop_min f_prop_max (f_ang 2) (f_lin 2) :=
        le_trans (min_le_right _ _) (le_trans (min_le_right _ _) (min_le_left _ _))
      have h3 : p_spec f_prop_min f_prop_max f_ang f_lin ≤
          pValid f_prop_min f_prop_max (f_ang 3) (f_lin 3) :=
        le_trans (min_le_right _ _) (le_trans (min_le_right _ _) (min_le_right _ _))
      have hvEq : ∀ j : Fin 4, p = pScale f_prop_min f_prop_max (f_ang j) (f_lin j) →
          p_spec f_prop_min f_prop_max f_ang f_lin ≤ p := by
        intro j hj
        have hvalid : pValid f_prop_min f_prop_max (f_ang j) (f_lin j) = p := by
          unfold pValid
          rw [← hj, if_pos ⟨hp0, hp1⟩]
        have := (by fin_cases j <;> assumption :
          p_spec f_prop_min f_prop_max f_ang f_lin ≤
            pValid f_prop_min f_prop_max (f_ang j) (f_lin j))
        rw [hvalid] at this
        exact this
      have hmem' := hmem
      simp only [pList, List.mem_cons, List.not_mem_nil, or_false] at hmem'
      rw [show (regulator f_prop_min f_prop_max f_ang f_lin).1 = p from hval]
      rcases hmem' with h | h | h | h
      · exact hvEq 0 h
      · exact hvEq 1 h
      · exact hvEq 2 h
      · exact hvEq 3 h

/-- C3: after the allocation loop the saturation flag `quat_sat` is true if
and only if the final `p_min` is strictly below 1 (some prop forced the
scale down); when no per-prop factor lies in `(0,1)` the flag is false. -/
theorem regulator_sat_iff (f_prop_min f_prop_max : ℝ) (f_ang f_lin : Fin 4 → ℝ) :
    ((regulator f_prop_min f_prop_max f_ang f_lin).2 = true ↔
      (regulator f_prop_min f_prop_max f_ang f_lin).1 < 1) ∧
    ((∀ i : Fin 4, ¬(0 < pScale f_prop_min f_prop_max (f_ang i) (f_lin i) ∧
        pScale f_prop_min f_prop_max (f_ang i) (f_lin i) < 1)) →
      (regulator f_prop_min f_prop_max f_ang f_lin).2 = false) := by
  unfold regulator
  rcases regFold_attain (pList f_prop_min f_prop_max f_ang f_lin) 1 false with
    heq | ⟨p, hmem, hp0, hp1, hval, hflag⟩
  · rw [heq]
    simp
  · constructor
    · constructor
      · intro _
        rw [hval]
        exact hp1
      · intro _
        exact hflag
    · intro hnone
      exfalso
      have hmem' := hmem
      simp only [pList, List.mem_cons, List.not_mem_nil, or_false] at hmem'
      rcases hmem' with h | h | h | h
      · exact hnone 0 ⟨h ▸ hp0, h ▸ hp1⟩
      · exact hnone 1 ⟨h ▸ hp0, h ▸ hp1⟩
      · exact hnone 2 ⟨h ▸ hp0, h ▸ hp1⟩
      · exact hnone 3 ⟨h ▸ hp0, h ▸ hp1⟩

/-- Witness for `regulator_sat_iff` at concrete inputs: with torque vector
`(2,0,0,0)` and thrust shares `1/2` the scale drops below 1 and the flag is
set; with zero torque no per-prop factor is valid and the flag stays
clear. -/
theorem regulator_sat_iff_witness :
    (regulator 0 1 ![2, 0, 0, 0] ![1/2, 1/2, 1/2, 1/2]).2 = true ∧
    (regulator 0 1 ![0, 0, 0, 0] ![1/2, 1/2, 1/2, 1/2]).2 = false := by
  constructor
  · exact (regulator_sat_iff 0 1 ![2, 0, 0, 0] ![1/2, 1/2, 1/2, 1/2]).1.mpr
      (by norm_num [regulator, pList, pScale, regStep, List.foldl])
  · exact (regulator_sat_iff 0 1 ![0, 0, 0, 0] ![1/2, 1/2, 1/2, 1/2]).2
      (by intro i; fin_cases i <;> norm_num [pScale])

/-! Gain synthesis, as the spec words it (§4.1). -/

def gain_kp (I p adj : ℝ) : ℝ := 6 * I * p ^ 2 + adj
def gain_ki (I p adj : ℝ) : ℝ := -2 * I * p ^ 3 + adj
def gain_kd (I p adj : ℝ) : ℝ := -6 * I * p + adj

/-- C6: for each attitude axis with inertia `I`, pole `p` and trim
adjustments, the synthesized gains are `Kp = 6 I p^2 + trim_p`,
`Ki = -2 I p^3 + trim_i`, `Kd = -6 I p + trim_d`; the vertical-acceleration
loop has `Kp = 0`, `Ki = -mass * pole_az`, `Kd = 0`. -/
theorem gain_synthesis :
    qx_kp = gain_kp inr_xx pole_qx qx_kp_adj ∧
    qx_ki = gain_ki inr_xx pole_qx qx_ki_adj ∧
    qx_kd = gain_kd inr_xx pole_qx qx_kd_adj ∧
    qy_kp = gain_kp inr_yy pole_qy qy_kp_adj ∧
    qy_ki = gain_ki inr_yy pole_qy qy_ki_adj ∧
    qy_kd = gain_kd inr_yy pole_qy qy_kd_adj ∧
    qz_kp = gain_kp inr_zz pole_qz qz_kp_adj ∧
    qz_ki = gain_ki inr_zz pole_qz qz_ki_adj ∧
    qz_kd = gain_kd inr_zz pole_qz qz_kd_adj ∧
    az_kp = 0 ∧ az_ki = -mass * pole_az ∧ az_kd = 0 := by
  refine ⟨?_, ?_, ?_, ?_, ?_, ?_, ?_, ?_, ?_, ?_, rfl, ?_⟩ <;>
    · simp only [qx_kp, qx_ki, qx_kd, qy_kp, qy_ki, qy_kd, qz_kp, qz_ki, qz_kd,
        az_kp, az_kd, gain_kp, gain_ki, gain_kd]
      norm_num

/-- Output clamping is the identity when both bounds are infinite. -/
theorem clampE_bot_top (x : ℝ) : clampE x ⊥ ⊤ = x := by
  unfold clampE
  simp

/-- A PID whose output bounds are the two infinities never clamps: its update
output is the raw P + I + D sum. -/
theorem pid_update_unclamped (c : PID) (ho : c.o_min = ⊥) (ht : c.o_max = ⊤)
    (e : ℝ) (sat : Bool) : (c.update e sat).1 = c.rawOut e sat := by
  show clampE (c.rawOut e sat) c.o_min c.o_max = c.rawOut e sat
  rw [ho, ht]
  exact clampE_bot_top _

/-- C10: the three attitude PIDs are constructed with output bounds
`-HUGE_VALF` and `+HUGE_VALF` (here `⊥` and `⊤`), so their output clamp
never limits the torque commands: for every state and input the update
output equals the unclamped P + I + D sum; only the vertical-acceleration
PID has finite output bounds `[f_lin_min, f_lin_max]`. -/
theorem attitude_pid_unclamped :
    quat_x_pid.o_min = ⊥ ∧ quat_x_pid.o_max = ⊤ ∧
    quat_y_pid.o_min = ⊥ ∧ quat_y_pid.o_max = ⊤ ∧
    quat_z_pid.o_min = ⊥ ∧ quat_z_pid.o_max = ⊤ ∧
    (∀ intg prev e : ℝ, ∀ sat : Bool,
      (PID.update { quat_x_pid with integral := intg, prev_err := prev } e sat).1 =
        PID.rawOut { quat_x_pid with integral := intg, prev_err := prev } e sat) ∧
    (∀ intg prev e : ℝ, ∀ sat : Bool,
      (PID.update { quat_y_pid with integral := intg, prev_err := prev } e sat).1 =
        PID.rawOut { quat_y_pid with integral := intg, prev_err := prev } e sat) ∧
    (∀ intg prev e : ℝ, ∀ sat : Bool,
      (PID.update { quat_z_pid with integral := intg, prev_err := prev } e sat).1 =
        PID.rawOut { quat_z_pid with integral := intg, prev_err := prev } e sat) ∧
    ∀ f_prop_max : ℝ,
      (acc_z_pid f_prop_max).o_min = ((f_lin_min f_prop_max : ℝ) : EReal) ∧
      (acc_z_pid f_prop_max).o_max = ((f_lin_max f_prop_max : ℝ) : EReal) ∧
      (acc_z_pid f_prop_max).o_min ≠ ⊥ ∧ (acc_z_pid f_prop_max).o_min ≠ ⊤ ∧
      (acc_z_pid f_prop_max).o_max ≠ ⊥ ∧ (acc_z_pid f_prop_max).o_max ≠ ⊤ := by
  refine ⟨rfl, rfl, rfl, rfl, rfl, rfl,
    fun intg prev e sat => pid_update_unclamped _ rfl rfl e sat,
    fun intg prev e sat => pid_update_unclamped _ rfl rfl e sat,
    fun intg prev e sat => pid_update_unclamped _ rfl rfl e sat,
    fun f_prop_max => ⟨rfl, rfl, EReal.coe_ne_bot _, EReal.coe_ne_top _,
      EReal.coe_ne_bot _, EReal.coe_ne_top _⟩⟩

/-- C8: `reset()` zeroes the four PID integrators (and stored previous
errors), clears the saturation flag and zeroes the output force vector; it
leaves the allocation matrices, the basis vectors, the PID gains and output
bounds, and the `init_complete` flag untouched (in particular `init()` is
not re-run). -/
theorem reset_effects (s : State) :
    (reset s).quat_x_pid = { s.quat_x_pid with integral := 0, prev_err := 0 } ∧
    (reset s).quat_y_pid = { s.quat_y_pid with integral := 0, prev_err := 0 } ∧
    (reset s).quat_z_pid = { s.quat_z_pid with integral := 0, prev_err := 0 } ∧
    (reset s).acc_z_pid = { s.acc_z_pid with integral := 0, prev_err := 0 } ∧
    (reset s).quat_sat = false ∧
    (reset s).f_props = (fun _ => 0) ∧
    (reset s).D_bar_ang = s.D_bar_ang ∧
    (reset s).D_bar_lin = s.D_bar_lin ∧
    (reset s).x_hat = s.x_hat ∧
    (reset s).y_hat = s.y_hat ∧
    (reset s).z_hat = s.z_hat ∧
    (reset s).init_complete = s.init_complete :=
  ⟨rfl, rfl, rfl, rfl, rfl, rfl, rfl, rfl, rfl, rfl, rfl, rfl⟩

/-- C1 (amended): when the vertical thrust demand lies in the clamp interval
`[f_lin_min, f_lin_max]` of the vertical PID, each prop's thrust share is
`D_bar_lin * f_lin_sca`, the external bounds satisfy
`f_prop_min < f_rat_min * f_prop_max` (strictly) and `0 < f_prop_max`, every
entry of the output force vector computed at the end of `update()` lies
within `[f_prop_min, f_prop_max]`. -/
theorem prop_force_bounds (f_prop_min f_prop_max f_lin_sca : ℝ)
    (f_ang f_lin : Fin 4 → ℝ) (i : Fin 4)
    (hfl : ∀ j : Fin 4, f_lin j = D_bar_lin_init j * f_lin_sca)
    (hmin : f_prop_min < f_rat_min * f_prop_max)
    (hpm : 0 < f_prop_max)
    (hlo : f_lin_min f_prop_max ≤ f_lin_sca)
    (hhi : f_lin_sca ≤ f_lin_max f_prop_max) :
    f_prop_min ≤ force_reg f_prop_min f_prop_max f_ang f_lin i ∧
    force_reg f_prop_min f_prop_max f_ang f_lin i ≤ f_prop_max := by
  have hD : ∀ j : Fin 4, D_bar_lin_init j = 1/4 := by
    intro j
    fin_cases j <;> norm_num [D_bar_lin_init]
  have hfl' : ∀ j : Fin 4, f_lin j = f_lin_sca / 4 := by
    intro j
    rw [hfl j, hD j]
    ring
  have hr : f_rat_min = 1/10 := by norm_num [f_rat_min]
  have hLo : f_lin_min f_prop_max = 2/5 * f_prop_max := by
    norm_num [f_lin_min, f_rat_min]
    ring
  have hHi : f_lin_max f_prop_max = 18/5 * f_prop_max := by
    norm_num [f_lin_max, f_rat_max]
    ring
  have hflo : ∀ j : Fin 4, f_prop_min < f_lin j := by
    intro j
    rw [hfl' j]
    rw [hr] at hmin
    rw [hLo] at hlo
    linarith
  have hfhi : ∀ j : Fin 4, f_lin j < f_prop_max := by
    intro j
    rw [hfl' j]
    rw [hHi] at hhi
    linarith
  have hscale_pos : ∀ j : Fin 4,
      0 < pScale f_prop_min f_prop_max (f_ang j) (f_lin j) := by
    intro j
    unfold pScale
    split_ifs with h1 h2
    · exact div_pos (by have := hfhi j; linarith) h1
    · exact div_pos_of_neg_of_neg (by have := hflo j; linarith) h2
    · exact one_pos
  have hP0 : 0 < (regulator f_prop_min f_prop_max f_ang f_lin).1 :=
    regFold_fst_pos _ 1 false one_pos
  have hPle : ∀ j : Fin 4, (regulator f_prop_min f_prop_max f_ang f_lin).1 ≤
      pScale f_prop_min f_prop_max (f_ang j) (f_lin j) := fun j =>
    regFold_fst_le_of_mem _ 1 false _ (pScale_mem_pList _ _ _ _ j) (hscale_pos j)
  have hout : force_reg f_prop_min f_prop_max f_ang f_lin i =
      (regulator f_prop_min f_prop_max f_ang f_lin).1 * f_ang i + f_lin i := rfl
  rcases lt_trichotomy (f_ang i) 0 with hneg | hzero | hpos
  · have hps : pScale f_prop_min f_prop_max (f_ang i) (f_lin i) =
        (f_prop_min - f_lin i) / f_ang i := by
      unfold pScale
      rw [if_neg (by linarith), if_pos hneg]
    have hmul : ((f_prop_min - f_lin i) / f_ang i) * f_ang i ≤
        (regulator f_prop_min f_prop_max f_ang f_lin).1 * f_ang i :=
      mul_le_mul_of_nonpos_right (hps ▸ hPle i) (le_of_lt hneg)
    rw [div_mul_cancel₀ _ (ne_of_lt hneg)] at hmul
    have hneg' : (regulator f_prop_min f_prop_max f_ang f_lin).1 * f_ang i < 0 :=
      mul_neg_of_pos_of_neg hP0 hneg
    constructor
    · rw [hout]; linarith
    · rw [hout]; have := hfhi i; linarith
  · constructor
    · rw [hout, hzero]; have := hflo i; simp; linarith
    · rw [hout, hzero]; have := hfhi i; simp; linarith
  · have hps : pScale f_prop_min f_prop_max (f_ang i) (f_lin i) =
        (f_prop_max - f_lin i) / f_ang i := by
      unfold pScale
      rw [if_pos hpos]
    have hmul : (regulator f_prop_min f_prop_max f_ang f_lin).1 * f_ang i ≤
        ((f_prop_max - f_lin i) / f_ang i) * f_ang i :=
      mul_le_mul_of_nonneg_right (hps ▸ hPle i) (le_of_lt hpos)
    rw [div_mul_cancel₀ _ (ne_of_gt hpos)] at hmul
    have hpos' : 0 < (regulator f_prop_min f_prop_max f_ang f_lin).1 * f_ang i :=
      mul_pos hP0 hpos
    constructor
    · rw [hout]; have := hflo i; linarith
    · rw [hout]; linarith

/-- Counterexample to C1 as stated: the claim allows
`f_prop_min = f_rat_min * f_prop_max`.  Take `f_prop_max = 1`,
`f_prop_min = 1/10` and thrust demand `2/5` (the lower clamp bound
`f_lin_min 1`), so every thrust share is exactly `1/10 = f_prop_min`, and a
torque command that allocates to `(-9/10, 9/10, -9/10, 9/10)`.  Props with
negative torque get per-prop factor `0`, which the loop's strict `0 < p`
test discards, and props with positive torque get factor exactly `1`; so no
rescaling happens and prop 0 ends at `-4/5`, far below
`f_prop_min = 1/10`. -/
theorem prop_force_bounds_cex :
    (1:ℝ)/10 ≤ f_rat_min * 1 ∧
    f_lin_min 1 ≤ (2:ℝ)/5 ∧ (2:ℝ)/5 ≤ f_lin_max 1 ∧
    D_bar_lin_init 0 * (2/5) = 1/10 ∧ D_bar_lin_init 1 * (2/5) = 1/10 ∧
    D_bar_lin_init 2 * (2/5) = 1/10 ∧ D_bar_lin_init 3 * (2/5) = 1/10 ∧
    force_reg (1/10) 1 (matVec3 D_bar_ang_init ![-(225000/672043), 0, 0])
      ![1/10, 1/10, 1/10, 1/10] 0 = -(4/5) ∧
    ¬ ((1:ℝ)/10 ≤ force_reg (1/10) 1
        (matVec3 D_bar_ang_init ![-(225000/672043), 0, 0])
        ![1/10, 1/10, 1/10, 1/10] 0) := by
  refine ⟨by norm_num [f_rat_min], by norm_num [f_lin_min, f_rat_min],
    by norm_num [f_lin_max, f_rat_max],
    by norm_num [D_bar_lin_init], by norm_num [D_bar_lin_init],
    by norm_num [D_bar_lin_init], by norm_num [D_bar_lin_init], ?_, ?_⟩ <;>
  · norm_num [force_reg, regulator, pList, pScale, regStep, matVec3,
      D_bar_ang_init, List.foldl]

/-- Witness for `prop_force_bounds` at a concrete input satisfying its
hypotheses strictly. -/
theorem prop_force_bounds_witness :
    (0:ℝ) < 1 ∧
    0 ≤ force_reg 0 1 ![1, 1, 1, 1] ![1/2, 1/2, 1/2, 1/2] 0 ∧
    force_reg 0 1 ![1, 1, 1, 1] ![1/2, 1/2, 1/2, 1/2] 0 ≤ 1 := by
  refine ⟨by norm_num, ?_⟩
  exact prop_force_bounds 0 1 2 ![1, 1, 1, 1] ![1/2, 1/2, 1/2, 1/2] 0
    (by intro j; fin_cases j <;> norm_num [D_bar_lin_init])
    (by norm_num [f_rat_min]) (by norm_num)
    (by norm_num [f_lin_min, f_rat_min]) (by norm_num [f_lin_max, f_rat_max])

/-- C4 (amended): when the horizontal magnitude `norm_xy` is exactly zero
the division `p = norm_xy_max / norm_xy` of line 166 is nonetheless reached
(`acc_p` is computed unconditionally; the only branch in the source is the
`p < 1.0f` comparison of line 167, not a zero test), and the two horizontal
components are left unchanged by the shaping step, because a zero horizontal
magnitude already forces both of them to be zero. -/
theorem acc_shape_zero_norm_xy (f_prop_max : ℝ) (cmd : Fin 3 → ℝ)
    (h : norm_xy cmd = 0) :
    acc_shape f_prop_max cmd 0 = cmd 0 ∧ acc_shape f_prop_max cmd 1 = cmd 1 := by
  have hsum : cmd 0 ^ 2 + cmd 1 ^ 2 ≤ 0 := Real.sqrt_eq_zero'.mp h
  have h0sq : cmd 0 ^ 2 = 0 :=
    le_antisymm (by nlinarith [sq_nonneg (cmd 1)]) (sq_nonneg _)
  have h1sq : cmd 1 ^ 2 = 0 :=
    le_antisymm (by nlinarith [sq_nonneg (cmd 0)]) (sq_nonneg _)
  have htwo : (2:ℕ) ≠ 0 := by norm_num
  have h0 : cmd 0 = 0 := (pow_eq_zero_iff htwo).mp h0sq
  have h1 : cmd 1 = 0 := (pow_eq_zero_iff htwo).mp h1sq
  unfold acc_shape
  split_ifs with hp
  · constructor
    · show cmd 0 * acc_p f_prop_max cmd = cmd 0
      rw [h0, zero_mul]
    · show cmd 1 * acc_p f_prop_max cmd = cmd 1
      rw [h1, zero_mul]
  · exact ⟨rfl, rfl⟩

/-- Counterexample to C4 as stated: at command `(0,0,0)` the horizontal
magnitude is exactly zero, yet the division of line 166 is still reached
with divisor `norm_xy = 0` — there is no explicit branch guarding the
division (the only test in the source, `p < 1.0f`, is applied to the
already-computed quotient). -/
theorem acc_shape_div_guard_cex :
    norm_xy ![0, 0, 0] = 0 ∧
    acc_p 1 ![0, 0, 0] = norm_xy_max 1 ![0, 0, 0] / 0 := by
  have h : norm_xy ![(0:ℝ), 0, 0] = 0 := by
    norm_num [norm_xy, Real.sqrt_zero]
  refine ⟨h, ?_⟩
  unfold acc_p
  rw [h]

/-- Witness for `acc_shape_zero_norm_xy` at a concrete command with zero
horizontal magnitude. -/
theorem acc_shape_zero_norm_xy_witness :
    norm_xy ![0, 0, 5] = 0 ∧
    acc_shape 2 ![0, 0, 5] 0 = ![(0:ℝ), 0, 5] 0 ∧
    acc_shape 2 ![0, 0, 5] 1 = ![(0:ℝ), 0, 5] 1 := by
  have h : norm_xy ![(0:ℝ), 0, 5] = 0 := by
    norm_num [norm_xy, Real.sqrt_zero]
  have h2 := acc_shape_zero_norm_xy 2 ![0, 0, 5] h
  exact ⟨h, h2.1, h2.2⟩

/-- C5: if the shaped acceleration command's magnitude is zero, the target
orientation `q_cmd` is exactly the yaw-only rotation `q_z` about the
vertical axis — no roll or pitch factor is composed. -/
theorem orient_cmd_zero_acc (xh yh zh acc : Fin 3 → ℝ) (ang_z_cmd : ℝ)
    (h : norm3 acc = 0) :
    orient_cmd xh yh zh acc ang_z_cmd = quat_aa zh ang_z_cmd := by
  unfold orient_cmd
  rw [if_neg]
  rw [h]
  exact lt_irrefl 0

/-- Witness for `orient_cmd_zero_acc` at the zero acceleration command. -/
theorem orient_cmd_zero_acc_witness :
    norm3 ![0, 0, 0] = 0 ∧
    orient_cmd x_hat_init y_hat_init z_hat_init ![0, 0, 0] 0 =
      quat_aa z_hat_init 0 := by
  have h : norm3 ![(0:ℝ), 0, 0] = 0 := by
    norm_num [norm3, Real.sqrt_zero]
  exact ⟨h, orient_cmd_zero_acc _ _ _ _ 0 h⟩

/-- C7 (amended): the attitude-control step negates the orientation error
quaternion exactly when its scalar component is negative; consequently, for
every error quaternion with nonzero scalar component, feeding the quaternion
or its negation into the step (with identical PID states and saturation
hint) produces identical torque commands. -/
theorem tau_cmd_double_cover (px py pz : PID) (q : Quaternion ℝ) (sat : Bool) :
    (q.re < 0 → sign_fix q = -q) ∧
    (q.re ≠ 0 → tau_cmd px py pz q sat = tau_cmd px py pz (-q) sat) := by
  have hnre : (-q).re = -q.re := rfl
  constructor
  · intro h
    unfold sign_fix
    rw [if_pos h]
  · intro h
    have key : sign_fix q = sign_fix (-q) := by
      unfold sign_fix
      rcases lt_trichotomy q.re 0 with hlt | heq | hgt
      · rw [if_pos hlt, if_neg (by rw [hnre]; linarith)]
      · exact absurd heq h
      · rw [if_neg (by linarith), if_pos (by rw [hnre]; linarith), neg_neg]
    unfold tau_cmd
    rw [key]

/-- Counterexample to C7 as stated: the pure-vector unit error quaternion
`(0,1,0,0)` has zero (not negative) scalar component, so neither it nor its
negation is sign-corrected; the x-axis PID then receives error `-1` in one
case and `+1` in the other and the torque commands differ. -/
theorem tau_cmd_double_cover_cex :
    tau_cmd quat_x_pid quat_y_pid quat_z_pid ⟨0, 1, 0, 0⟩ false 0 ≠
      tau_cmd quat_x_pid quat_y_pid quat_z_pid
        (-(⟨0, 1, 0, 0⟩ : Quaternion ℝ)) false 0 := by
  have h1 : sign_fix ⟨0, 1, 0, 0⟩ = (⟨0, 1, 0, 0⟩ : Quaternion ℝ) := by
    unfold sign_fix
    rw [if_neg]
    exact (show ¬((0:ℝ) < 0) by norm_num)
  have h2 : sign_fix (-(⟨0, 1, 0, 0⟩ : Quaternion ℝ)) =
      -(⟨0, 1, 0, 0⟩ : Quaternion ℝ) := by
    unfold sign_fix
    rw [if_neg]
    exact (show ¬(-(0:ℝ) < 0) by norm_num)
  unfold tau_cmd
  rw [h1, h2]
  show (quat_x_pid.update (-(1:ℝ)) false).1 ≠ (quat_x_pid.update (-(-1:ℝ)) false).1
  norm_num [PID.update, PID.rawOut, PID.nextIntegral, clampE, quat_x_pid,
    qx_kp, qx_ki, qx_kd, qx_kp_adj, qx_ki_adj, qx_kd_adj, inr_xx, pole_qx,
    f_ctrl, not_lt_bot, not_top_lt]

/-- Witness for `tau_cmd_double_cover` at a concrete error quaternion with
negative scalar component. -/
theorem tau_cmd_double_cover_witness :
    sign_fix ⟨-1, 1, 0, 0⟩ = -(⟨-1, 1, 0, 0⟩ : Quaternion ℝ) ∧
    tau_cmd quat_x_pid quat_y_pid quat_z_pid ⟨-1, 1, 0, 0⟩ false =
      tau_cmd quat_x_pid quat_y_pid quat_z_pid
        (-(⟨-1, 1, 0, 0⟩ : Quaternion ℝ)) false := by
  have h := tau_cmd_double_cover quat_x_pid quat_y_pid quat_z_pid ⟨-1, 1, 0, 0⟩ false
  exact ⟨h.1 (show (-1:ℝ) < 0 by norm_num), h.2 (show (-1:ℝ) ≠ 0 by norm_num)⟩

/-- C9: provided `0 < f_prop_max` and `0 < mass`, after the shaping step the
vertical component of the acceleration command is at least
`acc_mag_min = (4 f_prop_max / mass) * f_rat_min`, which is strictly
positive; hence the shaped command's norm is strictly positive and the
yaw-only fallback branch of the orientation command (`q_cmd` left equal to
`q_z` because `norm_acc` is not positive) is never taken inside
`update()`. -/
theorem shaped_acc_z_pos (f_prop_max : ℝ) (cmd : Fin 3 → ℝ)
    (xh yh zh : Fin 3 → ℝ) (ang_z_cmd : ℝ)
    (hpm : 0 < f_prop_max) (hm : 0 < mass) :
    acc_mag_min f_prop_max = 4 * f_prop_max / mass * f_rat_min ∧
    0 < acc_mag_min f_prop_max ∧
    acc_mag_min f_prop_max ≤ acc_shape f_prop_max cmd 2 ∧
    0 < norm3 (acc_shape f_prop_max cmd) ∧
    orient_cmd xh yh zh (acc_shape f_prop_max cmd) ang_z_cmd =
      orient_cmd_main xh yh zh (acc_shape f_prop_max cmd) ang_z_cmd := by
  have hmax : 0 < acc_max f_prop_max := by
    unfold acc_max
    exact div_pos (by linarith) hm
  have hpos : 0 < acc_mag_min f_prop_max := by
    unfold acc_mag_min
    exact mul_pos hmax (by norm_num [f_rat_min])
  have hminmax : acc_mag_min f_prop_max ≤ acc_mag_max f_prop_max := by
    unfold acc_mag_min acc_mag_max
    exact mul_le_mul_of_nonneg_left (by norm_num [f_rat_min, f_rat_max]) hmax.le
  have hz : acc_shape f_prop_max cmd 2 = acc_z_shaped f_prop_max cmd := by
    unfold acc_shape
    split_ifs <;> simp
  have hclamp : acc_mag_min f_prop_max ≤ acc_z_shaped f_prop_max cmd := by
    unfold acc_z_shaped clamp
    split_ifs with hc1 hc2
    · exact le_refl _
    · exact hminmax
    · exact le_of_not_lt hc1
  have hz2 : acc_mag_min f_prop_max ≤ acc_shape f_prop_max cmd 2 := by
    rw [hz]
    exact hclamp
  have hzpos : 0 < acc_shape f_prop_max cmd 2 := lt_of_lt_of_le hpos hz2
  have hnorm : 0 < norm3 (acc_shape f_prop_max cmd) := by
    unfold norm3
    apply Real.sqrt_pos.mpr
    nlinarith [sq_nonneg (acc_shape f_prop_max cmd 0),
      sq_nonneg (acc_shape f_prop_max cmd 1)]
  refine ⟨?_, hpos, hz2, hnorm, ?_⟩
  · unfold acc_mag_min acc_max
    norm_num
  · unfold orient_cmd
    rw [if_pos hnorm]

/-- Witness for `shaped_acc_z_pos` at `f_prop_max = 1` and the zero
acceleration command. -/
theorem shaped_acc_z_pos_witness :
    (0:ℝ) < 1 ∧ 0 < mass ∧
    0 < norm3 (acc_shape 1 ![0, 0, 0]) ∧
    orient_cmd x_hat_init y_hat_init z_hat_init (acc_shape 1 ![0, 0, 0]) 0 =
      orient_cmd_main x_hat_init y_hat_init z_hat_init (acc_shape 1 ![0, 0, 0]) 0 := by
  have hm : (0:ℝ) < mass := by norm_num [mass]
  have h := shaped_acc_z_pos 1 ![0, 0, 0] x_hat_init y_hat_init z_hat_init 0
    (by norm_num) hm
  exact ⟨by norm_num, hm, h.2.2.2.1, h.2.2.2.2⟩

end Controller
